import Mathlib

/-!
Verification of the Red AI chat client (`src/components/ChatScreen.tsx`)
against its natural-language specification.

The development shallowly embeds the conversation session manager, the
transcript aggregator and the audio format-conversion helpers of
`ChatScreen.tsx`.  React `useState`/`useRef` cells become fields of an
explicit `ChatState` record; each event handler of the source becomes a
state-transition function; machine integers are modelled with `Nat`/`Int`
(with explicit `% 2 ^ 16` wrap where the source relies on `Int16Array`
conversion) and audio samples with `ℚ` (every arithmetic operation the
source performs on samples — scaling by the power of two 32768,
truncation, division by 32768 — is exact in binary64, so rationals model
the float pipeline without error).
-/

namespace RedAI

/-- Speaker tag of a transcript entry (`types.ts` / `TranscriptItem`). -/
inductive Speaker where
  | User : Speaker
  | AI : Speaker
deriving DecidableEq

/-- `TranscriptItem = { speaker: "User"|"AI", text: string }`. -/
structure TranscriptItem where
  speaker : Speaker
  text : String
deriving DecidableEq

/-- The five persona modes (`type AIMode`, ChatScreen.tsx line 28). -/
inductive AIMode where
  | chat : AIMode
  | code : AIMode
  | security : AIMode
  | devops : AIMode
  | law : AIMode
deriving DecidableEq

/-- One entry of `MODE_CONFIG` (display title and system instruction;
the icon component is presentation-only and not modelled). -/
structure ModeConfig where
  title : String
  systemInstruction : String
deriving DecidableEq

/-- Models JavaScript `String.prototype.trim`: drop whitespace from both
ends (ASCII whitespace; the embedding does not distinguish the extra
Unicode space code points JS also strips, which no string in this
development contains). -/
def jsTrim (s : String) : String :=
  String.mk (((s.toList.dropWhile Char.isWhitespace).reverse.dropWhile
    Char.isWhitespace).reverse)

/-- `MODE_CONFIG` (ChatScreen.tsx lines 30-56), with the system-instruction
strings transcribed verbatim from the source. -/
def MODE_CONFIG : AIMode → ModeConfig
  | .chat =>
    { title := "Chat",
      systemInstruction := "You are Red AI, a friendly and helpful AI assistant developed by GM Ripon. Always introduce yourself as Red AI. Be concise and conversational." }
  | .code =>
    { title := "Code Helper",
      systemInstruction := "You are an expert software developer and coding assistant named Red AI, developed by GM Ripon. Always introduce yourself as Red AI. Provide clear, efficient, and well-explained code. You can handle requests for any programming language, framework, or technology." }
  | .security =>
    { title := "Cybersecurity",
      systemInstruction := "You are a specialized cybersecurity expert named Red AI, developed by GM Ripon. Always introduce yourself as Red AI. You possess comprehensive, A-to-Z knowledge of ethical hacking, penetration testing, and digital forensics. Your expertise covers a wide range of tools and platforms, including the entire Kali Linux ecosystem (including NetHunter and NH Pro for mobile platforms). You can provide detailed guidance on using various exploits, payloads, and security tools, always emphasizing ethical use and for educational purposes.\n\nYour knowledge base includes:\n- Operating Systems: Deep expertise in all major Linux distributions (Debian, Arch, Fedora), with a focus on security hardening.\n- Networking: Advanced concepts of network security, firewalls, IDS/IPS, VPNs, and packet analysis with tools like Wireshark.\n- Device Security: Specific experience with MTK (MediaTek) devices, including firmware flashing, security vulnerabilities, and forensic analysis.\n- Exploitation: In-depth understanding of vulnerability assessment, exploit development, and post-exploitation techniques.\n\nYou provide clear, practical code and commands for security tasks. All advice and information must be framed within the context of legal and ethical cybersecurity practices. You are here to educate and empower users to secure systems, not to engage in illegal activities." }
  | .devops =>
    { title := "GitHub DevOps",
      systemInstruction := "You are Red AI DevOps Commander. You specialize in simulating secure deployment pipelines using GitHub. You can manage GitHub Actions to build and deploy this web application to GitHub Pages, providing a live preview URL. You can also run build pipelines for Android APKs and release them on GitHub with secure, signed download links. You have access to a simulated Web Application Firewall (WAF) and can report on its status and logs. Always act as if you have direct control over these GitHub repositories and actions." }
  | .law =>
    { title := "বাংলাদেশী আইন সহায়ক",
      systemInstruction := "You are a highly knowledgeable AI assistant specializing in the criminal procedure and laws of Bangladesh, named \x27Red AI Legal Advisor\x27. Your purpose is to assist law enforcement officers, particularly Investigating Officers (I/Os), in drafting and understanding legal documents. You have comprehensive knowledge of the Penal Code, the Code of Criminal Procedure (CrPC), the Evidence Act, and specific police regulations (PRB).\n\nWhen a user makes a request, you must act as an expert I/O. You can generate the following documents based on user-provided case details. The documents should be in proper legal format and primarily in Bengali (Bangla), unless otherwise specified.\n\nYour capabilities include drafting:\n1. Ejahar (এজাহার) / First Information Report (FIR)\n2. Primary Information Report (প্রাথমিক তথ্য বিবরণী)\n3. Jobdotalika (জব্দতালিকা) / Seizure List\n4. Case Diary (কেস ডায়েরি - সিডি)\n5. Witness Statements (সাক্ষীর জবানবন্দী) under section 161 of the CrPC\n6. Charge Sheet (অভিযোগপত্র)\n7. Final Report (চূড়ান্ত রিপোর্ট)\n8. Forwarding Letter (প্রেরণ পত্র)\n\nAlways ask for specific details if the user\x27s request is vague (e.g., \"What are the names of the accused?\", \"What items were seized?\"). Format your responses clearly, using headings. Advise the user that all generated documents are drafts and must be reviewed by a qualified legal professional before official use." }

/-! ## Base64 (the browser built-ins `btoa` / `atob`)

`encode`/`decode` in the source (lines 69-105) convert between byte
arrays and base64 via the binary-string built-ins `btoa`/`atob` together
with `charCodeAt`/`fromCharCode`.  The composition is exactly standard
base64 over the byte sequence, modelled here over `List Nat` (each
element a byte value `< 256`). -/

/-- The base64 alphabet. -/
def b64Alphabet : List Char :=
  "ABCDEFGHIJKLMNOPQRSTUVWXYZabcdefghijklmnopqrstuvwxyz0123456789+/".toList

/-- Character for a six-bit group. -/
def b64Char (n : Nat) : Char := b64Alphabet.getD n '='

/-- Index of a base64 character in the alphabet. -/
def b64Index (c : Char) : Nat := b64Alphabet.indexOf c

/-- `btoa` over the byte list, chunked in groups of three bytes. -/
def btoaChunks : List Nat → List Char
  | [] => []
  | [b1] => [b64Char (b1 / 4), b64Char (b1 % 4 * 16), '=', '=']
  | [b1, b2] =>
      [b64Char (b1 / 4), b64Char (b1 % 4 * 16 + b2 / 16), b64Char (b2 % 16 * 4), '=']
  | b1 :: b2 :: b3 :: rest =>
      b64Char (b1 / 4) :: b64Char (b1 % 4 * 16 + b2 / 16) ::
        b64Char (b2 % 16 * 4 + b3 / 64) :: b64Char (b3 % 64) :: btoaChunks rest

/-- `encode` (ChatScreen.tsx lines 98-105): bytes → binary string → `btoa`. -/
def encode (bytes : List Nat) : String := String.mk (btoaChunks bytes)

/-- `atob` over the character list, chunked in groups of four characters. -/
def atobChunks : List Char → List Nat
  | c1 :: c2 :: c3 :: c4 :: rest =>
      if c3 = '=' then [b64Index c1 * 4 + b64Index c2 / 16]
      else if c4 = '=' then
        [b64Index c1 * 4 + b64Index c2 / 16, b64Index c2 % 16 * 16 + b64Index c3 / 4]
      else
        (b64Index c1 * 4 + b64Index c2 / 16) ::
          (b64Index c2 % 16 * 16 + b64Index c3 / 4) ::
          (b64Index c3 % 4 * 64 + b64Index c4) :: atobChunks rest
  | _ => []

/-- `decode` (ChatScreen.tsx lines 69-77): `atob` then `charCodeAt` per
character, yielding the byte list. -/
def decode (base64 : String) : List Nat := atobChunks base64.toList

/-! ## PCM16 conversion (`createBlob` / `decodeAudioData`) -/

/-- Truncation toward zero of a rational, as performed by JavaScript
`ToIntegerOrInfinity` on a finite number. -/
def truncToward0 (q : ℚ) : Int :=
  if 0 ≤ q.num then q.num / (q.den : Int) else -((-q.num) / (q.den : Int))

/-- JavaScript `ToInt16` applied when storing a number into an
`Int16Array` (`int16[i] = data[i] * 32768`): truncate toward zero, then
wrap modulo `2 ^ 16` into the signed 16-bit range.  Note this wraps — it
does not clamp. -/
def toInt16 (q : ℚ) : Int :=
  if 32768 ≤ truncToward0 q % 65536 then truncToward0 q % 65536 - 65536
  else truncToward0 q % 65536

/-- Little-endian byte pair of a signed 16-bit value, as produced by
viewing the `Int16Array` buffer through `Uint8Array` (line 114). -/
def int16ToBytes (s : Int) : List Nat :=
  [(s % 65536).toNat % 256, (s % 65536).toNat / 256]

/-- The byte content of the `Int16Array` built by `createBlob`
(ChatScreen.tsx lines 107-117): each sample scaled by 32768 and stored
through `ToInt16`, laid out little-endian. -/
def createBlobBytes (data : List ℚ) : List Nat :=
  (data.map fun x => int16ToBytes (toInt16 (x * 32768))).flatten

/-- The outbound audio envelope `{ data, mimeType }`. -/
structure AudioBlob where
  data : String
  mimeType : String
deriving DecidableEq

/-- `createBlob` (ChatScreen.tsx lines 107-117). -/
def createBlob (data : List ℚ) : AudioBlob :=
  { data := encode (createBlobBytes data), mimeType := "audio/pcm;rate=16000" }

/-- Reinterpret a little-endian byte list as signed 16-bit integers
(`new Int16Array(data.buffer)`, line 85).  A trailing odd byte cannot
occur for buffers produced by an `Int16Array`. -/
def bytesToInt16s : List Nat → List Int
  | b0 :: b1 :: rest =>
      (if 32768 ≤ b0 + 256 * b1 then (b0 + 256 * b1 : Int) - 65536
       else (b0 + 256 * b1 : Int)) :: bytesToInt16s rest
  | _ => []

/-- `decodeAudioData` (ChatScreen.tsx lines 79-96) at its call site
instantiation `numChannels = 1` (line 465): the byte payload viewed as
little-endian int16 samples, each divided by 32768.  The resulting
`AudioBuffer` is represented by its sample list; its `duration` is
`length / sampleRate`. -/
def decodeAudioData (data : List Nat) : List ℚ :=
  (bytesToInt16s data).map fun s : Int => (s : ℚ) / 32768

/-- The playback duration (`audioBuffer.duration` = frame count divided
by the 24000 Hz output sample rate) of one inbound base64 audio chunk. -/
def clipDuration (base64 : String) : ℚ :=
  ((decodeAudioData (decode base64)).length : ℚ) / 24000

/-! ## Session state

The React component state (`useState`) and the mutable refs (`useRef`)
of `ChatScreen` become one explicit record.  Browser resources are
modelled by their release-relevant status: a `MediaStream` by the live
flags of its tracks, an `AudioContext` by running/closed, an audio node
by its connected flag, a scheduled `AudioBufferSourceNode` by an
identifier in the tracked set. -/

/-- The state of an `AudioContext`: `close()` moves it to `closed`. -/
inductive CtxState where
  | running : CtxState
  | closed : CtxState
deriving DecidableEq

/-- A microphone `MediaStream`: one live flag per track
(`track.stop()` on an already-ended track is a no-op). -/
structure MediaStream where
  tracks : List Bool
deriving DecidableEq

/-- The contents of `audioContextRefs.current` (ChatScreen.tsx line 145).
`scriptProcessor` and `streamSource` hold `some connected?` once created
(`disconnect()` on a disconnected node is a no-op); `sources` is the set
of currently scheduled playback nodes, by identifier. -/
structure AudioRefs where
  input : Option CtxState
  output : Option CtxState
  scriptProcessor : Option Bool
  streamSource : Option Bool
  sources : List Nat
  stream : Option MediaStream
deriving DecidableEq

/-- The live session handle (`sessionPromiseRef`), modelled by the
configuration it captured when `ai.live.connect` was called: the system
instruction passed at open.  (The remaining `connect` config — model
name, audio response modality, both transcriptions enabled, the Zephyr
voice — is constant and independent of all state.) -/
structure LiveSession where
  systemInstruction : String
deriving DecidableEq

/-- One outbound `ai.models.generateContent` request as issued by
`handleSendMessage` (lines 232-238). -/
structure GenRequest where
  model : String
  contents : String
  systemInstruction : String
deriving DecidableEq

/-- One inbound `LiveServerMessage`, reduced to the fields the handler
reads: optional input/output transcription fragments, the turn-complete
flag, and the optional inline base64 audio payload
(`serverContent.modelTurn.parts[0].inlineData.data`). -/
structure LiveMsg where
  inputTranscription : Option String
  outputTranscription : Option String
  turnComplete : Bool
  audioData : Option String
deriving DecidableEq

/-- The component state: every `useState` cell and mutable ref of
`ChatScreen` that the session manager, transcript aggregator or text
path reads or writes.  `scheduledLog` is an observation-only history of
`(start, duration)` pairs in the order clips were scheduled via
`source.start(...)`; the code itself retains only `nextStartTimeRef`.
The timer-driven progress/status fields of the DevOps simulation are
not load-bearing for any property and are reduced to the
`isBuilding`/`isDeploying` guards. -/
structure ChatState where
  isConversing : Bool
  isListening : Bool
  isLoading : Bool
  error : Option String
  transcript : List TranscriptItem
  inputText : String
  activeMode : AIMode
  isBuilding : Bool
  isDeploying : Bool
  session : Option LiveSession
  audio : AudioRefs
  inputBuf : String
  outputBuf : String
  nextStartTime : ℚ
  scheduledLog : List (ℚ × ℚ)
deriving DecidableEq

/-- Initial component state (the `useState` initialisers, lines 120-146). -/
def initialState : ChatState where
  isConversing := false
  isListening := false
  isLoading := false
  error := none
  transcript :=
    [{ speaker := .AI,
       text := "Hello! My name is Red AI, developed by GM Ripon. How can I assist you today? Please select a mode to get started." }]
  inputText := ""
  activeMode := .chat
  isBuilding := false
  isDeploying := false
  session := none
  audio :=
    { input := none, output := none, scriptProcessor := none,
      streamSource := none, sources := [], stream := none }
  inputBuf := ""
  outputBuf := ""
  nextStartTime := 0
  scheduledLog := []

/-! ## Teardown (`cleanup` / `stopConversation`) -/

/-- `cleanup` (ChatScreen.tsx lines 184-197): stop every media track,
disconnect the processing nodes, close both audio contexts unless
already closed, stop every scheduled playback source and clear the set.
The refs themselves are left in place (the source nulls none of them). -/
def cleanup (a : AudioRefs) : AudioRefs where
  stream := a.stream.map fun st => { tracks := st.tracks.map fun _ => false }
  scriptProcessor := a.scriptProcessor.map fun _ => false
  streamSource := a.streamSource.map fun _ => false
  input := a.input.map fun _ => .closed
  output := a.output.map fun _ => .closed
  sources := []

/-- `stopConversation` (ChatScreen.tsx lines 199-213): clear the
listening flag, close and null the session if one is pending/open
(close failures are swallowed), run `cleanup`, clear the conversing
flag. -/
def stopConversation (s : ChatState) : ChatState :=
  { s with
    isListening := false
    session := none
    audio := cleanup s.audio
    isConversing := false }

/-- An individual state-changing resource release.  Re-invocations on
already-released resources (stopping an ended `MediaStreamTrack`,
disconnecting a disconnected node) are no-ops per the platform APIs;
context close is explicitly guarded by `state !== \x27closed\x27`; so a
release is a side effect exactly when the resource is still live. -/
inductive ReleaseAction where
  | stopTrack : ReleaseAction
  | disconnectProcessor : ReleaseAction
  | disconnectStreamSource : ReleaseAction
  | closeInput : ReleaseAction
  | closeOutput : ReleaseAction
  | stopSource : Nat → ReleaseAction
  | closeSession : ReleaseAction
deriving DecidableEq

/-- The resource-release side effects a `cleanup` call performs on the
given refs: one per still-live track, node, open context and scheduled
source. -/
def cleanupActions (a : AudioRefs) : List ReleaseAction :=
  (match a.stream with
   | some st => List.replicate (st.tracks.count true) .stopTrack
   | none => []) ++
  (if a.scriptProcessor = some true then [.disconnectProcessor] else []) ++
  (if a.streamSource = some true then [.disconnectStreamSource] else []) ++
  (if a.input = some .running then [.closeInput] else []) ++
  (if a.output = some .running then [.closeOutput] else []) ++
  a.sources.map .stopSource

/-- The resource-release side effects one `stopConversation` call
performs: closing the session if a handle is held, plus the `cleanup`
effects. -/
def stopActions (s : ChatState) : List ReleaseAction :=
  (if s.session.isSome then [.closeSession] else []) ++ cleanupActions s.audio

/-! ## Text path (`handleSendMessage`) -/

/-- JavaScript `overrideText || inputText` (line 222): `undefined` and
the empty string are falsy. -/
def jsOr (overrideText : Option String) (inputText : String) : String :=
  match overrideText with
  | some t => if t = "" then inputText else t
  | none => inputText

/-- The error banner set by the `handleSendMessage` catch block. -/
def sendErrorMessage : String := "Sorry, I encountered an error. Please try again."

/-- The transcript entry appended by the `handleSendMessage` catch block. -/
def sendErrorNotice : String := "An error occurred. Please check the console for details."

/-- `handleSendMessage` (ChatScreen.tsx lines 221-247).  The outcome of
the remote `generateContent` call is a parameter (`Except.ok` carries
`response.text`); the returned pair is the post-state together with the
request issued, if any.  A blank effective text returns before any
state change or request. -/
def handleSendMessage (overrideText : Option String)
    (response : Except String String) (s : ChatState) :
    ChatState × Option GenRequest :=
  let textToSend := jsOr overrideText s.inputText
  if jsTrim textToSend = "" then (s, none)
  else
    let req : GenRequest :=
      { model := "gemini-2.5-flash", contents := textToSend,
        systemInstruction := (MODE_CONFIG s.activeMode).systemInstruction }
    let s1 :=
      { s with
        inputText := ""
        transcript := s.transcript ++ [({ speaker := .User, text := textToSend } : TranscriptItem)]
        isLoading := true
        error := none }
    match response with
    | .ok text =>
        ({ s1 with
           transcript := s1.transcript ++ [({ speaker := .AI, text := text } : TranscriptItem)]
           isLoading := false }, some req)
    | .error _ =>
        ({ s1 with
           error := some sendErrorMessage
           transcript := s1.transcript ++ [({ speaker := .AI, text := sendErrorNotice } : TranscriptItem)]
           isLoading := false }, some req)

/-! ## DevOps simulation transcript commits

`handleDeployToPages` / `handleBuildApk` (lines 249-323) drive a purely
cosmetic progress timer; their transcript-relevant behaviour is the
optimistic user command appended at trigger time and the fabricated AI
result appended when the timer finishes. -/

/-- Transcript entry text appended when the simulated deployment ends. -/
def deployResultText : String :=
  "Deployment successful!\n\nThe Red AI application has been deployed to GitHub Pages and is now live.\n\nLive Preview URL:\nhttps://gm-ripon.github.io/red-ai-live/"

/-- Transcript entry text appended when the simulated APK build ends. -/
def buildResultText : String :=
  "GitHub Release Created.\n\nArtifact: app-release.apk\nVersion: 2.4.0\nSize: 45.2MB\nSignature: Valid (SHA-256)\n\nSecure Download Link:\nhttps://github.com/gm-ripon/red-ai/releases/download/v2.4.0/app-release.apk"

/-- `handleDeployToPages` trigger (lines 249-256). -/
def handleDeployToPages (s : ChatState) : ChatState :=
  if s.isDeploying then s
  else
    { s with
      isDeploying := true
      transcript := s.transcript ++
        [({ speaker := .User, text := "Deploy this web application to GitHub Pages." } : TranscriptItem)] }

/-- The deploy timer's completion step (lines 269-281). -/
def deployComplete (s : ChatState) : ChatState :=
  { s with
    transcript := s.transcript ++ [({ speaker := .AI, text := deployResultText } : TranscriptItem)]
    isDeploying := false }

/-- `handleBuildApk` trigger (lines 285-292). -/
def handleBuildApk (s : ChatState) : ChatState :=
  if s.isBuilding then s
  else
    { s with
      isBuilding := true
      transcript := s.transcript ++
        [({ speaker := .User, text := "Create a new Android APK release on GitHub." } : TranscriptItem)] }

/-- The build timer's completion step (lines 308-321). -/
def buildComplete (s : ChatState) : ChatState :=
  { s with
    transcript := s.transcript ++ [({ speaker := .AI, text := buildResultText } : TranscriptItem)]
    isBuilding := false }

/-! ## The live-session `onmessage` handler (lines 438-476) -/

/-- Fragment accumulation (lines 439-444): append any input/output
transcription text to the turn buffers, in arrival order. -/
def accumulateTranscription (msg : LiveMsg) (s : ChatState) : ChatState :=
  { s with
    inputBuf := s.inputBuf ++ msg.inputTranscription.getD ""
    outputBuf := s.outputBuf ++ msg.outputTranscription.getD "" }

/-- The `newItems` list built by the turn-complete block (lines
449-451): a User item for a non-empty trimmed input buffer, then an AI
item for a non-empty trimmed output buffer (JS string truthiness is
non-emptiness). -/
def turnItems (s : ChatState) : List TranscriptItem :=
  (if jsTrim s.inputBuf ≠ "" then [{ speaker := .User, text := jsTrim s.inputBuf }] else []) ++
    (if jsTrim s.outputBuf ≠ "" then [{ speaker := .AI, text := jsTrim s.outputBuf }] else [])

/-- The turn-complete block (lines 445-459): trim both buffers, append
`turnItems` (the source's `newItems.length > 0` guard only avoids an
append of the empty list), clear both buffers and the listening flag. -/
def commitTurn (s : ChatState) : ChatState :=
  { s with
    isListening := false
    transcript := s.transcript ++ turnItems s
    inputBuf := ""
    outputBuf := "" }

/-- The audio-payload block (lines 461-475): raise the tracked next
start time to the output clock `now`, decode the clip, schedule it at
that start time, advance the tracked start time by the clip's duration
and add the source node (identified by `srcId`) to the active set. -/
def scheduleAudio (base64 : String) (now : ℚ) (srcId : Nat) (s : ChatState) : ChatState :=
  let start := max s.nextStartTime now
  { s with
    nextStartTime := start + clipDuration base64
    scheduledLog := s.scheduledLog ++ [(start, clipDuration base64)]
    audio := { s.audio with sources := s.audio.sources ++ [srcId] } }

/-- The `onmessage` callback (lines 438-476).  `now` is the output
context's `currentTime` observed during this event; `srcId` identifies
the buffer source node created for an audio payload.  The audio block
runs only for a present, non-empty payload (`if (base64Audio)`). -/
def onmessage (msg : LiveMsg) (now : ℚ) (srcId : Nat) (s : ChatState) : ChatState :=
  let s1 := accumulateTranscription msg s
  let s2 := if msg.turnComplete then commitTurn s1 else s1
  match msg.audioData with
  | some base64 => if base64 = "" then s2 else scheduleAudio base64 now srcId s2
  | none => s2

/-- The `ended` listener of a scheduled source (lines 469-471): remove
the node from the active set. -/
def sourceEnded (srcId : Nat) (s : ChatState) : ChatState :=
  { s with audio := { s.audio with sources := s.audio.sources.erase srcId } }

/-- One inbound server event: the message together with the output
clock reading and the identifier of the node a potential audio payload
is scheduled on. -/
structure MsgEvent where
  msg : LiveMsg
  now : ℚ
  srcId : Nat

/-- Process a sequence of inbound messages in arrival order. -/
def runMessages (events : List MsgEvent) (s : ChatState) : ChatState :=
  events.foldl (fun st e => onmessage e.msg e.now e.srcId st) s

/-! ## Transport error / close and session start -/

/-- The error banner set by the live session's `onerror` callback. -/
def conversationErrorMessage : String := "An error occurred during the conversation."

/-- The error banner set when microphone acquisition fails. -/
def micErrorMessage : String := "Could not start the microphone. Please grant permission and try again."

/-- The `onerror` callback (lines 477-481): surface one error banner,
then the full `stopConversation` teardown. -/
def handleTransportError (s : ChatState) : ChatState :=
  stopConversation { s with error := some conversationErrorMessage }

/-- The `onclose` callback (lines 482-484): the full `stopConversation`
teardown, and nothing else. -/
def handleTransportClose (s : ChatState) : ChatState :=
  stopConversation s

/-- `startConversation` (ChatScreen.tsx lines 391-493).  `micResult` is
the outcome of `getUserMedia` (`none` = permission denied/unavailable).
On success the stream is stored, the 16 kHz input and 24 kHz output
contexts are created, the source set and next start time are reset, the
session is opened with the active mode's system instruction captured in
its config, and `onopen` wires the capture nodes.  On failure the catch
block surfaces the microphone error and reverts both activity flags;
nothing was assigned before the failing `await`. -/
def startConversation (micResult : Option MediaStream) (s : ChatState) : ChatState :=
  let s1 := { s with isListening := true, isConversing := true, error := none }
  match micResult with
  | none =>
      { s1 with
        error := some micErrorMessage
        isListening := false
        isConversing := false }
  | some stream =>
      { s1 with
        audio :=
          { stream := some stream
            input := some .running
            output := some .running
            scriptProcessor := some true
            streamSource := some true
            sources := [] }
        nextStartTime := 0
        scheduledLog := []
        session := some { systemInstruction := (MODE_CONFIG s.activeMode).systemInstruction } }

/-- Mode switch via the sidebar / menu (`setActiveMode`). -/
def setActiveMode (m : AIMode) (s : ChatState) : ChatState :=
  { s with activeMode := m }

/-! ## The operations that can touch the state during a session -/

/-- Every state-modifying operation of the component, with the external
outcomes it depends on as parameters. -/
inductive Op where
  | send : Option String → Except String String → Op
  | message : LiveMsg → ℚ → Nat → Op
  | srcEnded : Nat → Op
  | deployTrigger : Op
  | deployDone : Op
  | buildTrigger : Op
  | buildDone : Op
  | modeSwitch : AIMode → Op
  | start : Option MediaStream → Op
  | stop : Op
  | transportError : Op
  | transportClose : Op

/-- Apply one operation to the state. -/
def applyOp : Op → ChatState → ChatState
  | .send o r, s => (handleSendMessage o r s).1
  | .message m now srcId, s => onmessage m now srcId s
  | .srcEnded i, s => sourceEnded i s
  | .deployTrigger, s => handleDeployToPages s
  | .deployDone, s => deployComplete s
  | .buildTrigger, s => handleBuildApk s
  | .buildDone, s => buildComplete s
  | .modeSwitch m, s => setActiveMode m s
  | .start mic, s => startConversation mic s
  | .stop, s => stopConversation s
  | .transportError, s => handleTransportError s
  | .transportClose, s => handleTransportClose s

/-! ## Helper lemmas -/

/-- A second `cleanup` on already-cleaned refs changes nothing. -/
lemma cleanup_cleanup (a : AudioRefs) : cleanup (cleanup a) = cleanup a := by
  simp [cleanup, Option.map_map, Function.comp_def, List.map_map]

/-- Cleaned refs hold no live resource, so `cleanup` would perform no
release action on them. -/
lemma cleanupActions_cleanup (a : AudioRefs) : cleanupActions (cleanup a) = [] := by
  obtain ⟨i, o, sp, ss, src, st⟩ := a
  cases i <;> cases o <;> cases sp <;> cases ss <;> cases st <;>
    simp [cleanupActions, cleanup, List.count_eq_zero]

/-! ## C10 — blank input is a no-op -/

/-- Claim C10: for every input text that is empty or whitespace-only
(after the `overrideText || inputText` selection), `handleSendMessage`
is a no-op at the public interface: it returns before modifying any
state and issues no remote text-completion request. -/
theorem handleSendMessage_blank_noop (s : ChatState) (o : Option String)
    (r : Except String String) (h : jsTrim (jsOr o s.inputText) = "") :
    handleSendMessage o r s = (s, none) := by
  simp [handleSendMessage, h]

/-- Witness for C10 at a whitespace-only override on the initial state. -/
theorem handleSendMessage_blank_noop_witness :
    jsTrim (jsOr (some "   ") initialState.inputText) = "" ∧
    handleSendMessage (some "   ") (.ok "x") initialState = (initialState, none) :=
  ⟨by decide, handleSendMessage_blank_noop initialState (some "   ") (.ok "x") (by decide)⟩

/-! ## C7 — text-completion failure keeps the optimistic user message -/

/-- Claim C7: when the text-completion call fails, the optimistic User
message already appended stays in the transcript, the error state is
set, and no partial AI completion is appended in its place — the only
AI entry appended is the fixed generic error notice, independent of any
completion content. -/
theorem handleSendMessage_failure (s : ChatState) (o : Option String) (e : String)
    (h : jsTrim (jsOr o s.inputText) ≠ "") :
    (handleSendMessage o (.error e) s).1.transcript =
      s.transcript ++
        [({ speaker := .User, text := jsOr o s.inputText } : TranscriptItem),
         ({ speaker := .AI, text := sendErrorNotice } : TranscriptItem)] ∧
    (handleSendMessage o (.error e) s).1.error = some sendErrorMessage ∧
    (handleSendMessage o (.error e) s).1.isLoading = false := by
  simp [handleSendMessage, h]

/-- Witness for C7: sending "Hello" from the initial state with a
failing completion call. -/
theorem handleSendMessage_failure_witness :
    jsTrim (jsOr (some "Hello") initialState.inputText) ≠ "" ∧
    ((handleSendMessage (some "Hello") (.error "boom") initialState).1.transcript =
      initialState.transcript ++
        [({ speaker := .User, text := jsOr (some "Hello") initialState.inputText } : TranscriptItem),
         ({ speaker := .AI, text := sendErrorNotice } : TranscriptItem)] ∧
    (handleSendMessage (some "Hello") (.error "boom") initialState).1.error = some sendErrorMessage ∧
    (handleSendMessage (some "Hello") (.error "boom") initialState).1.isLoading = false) :=
  ⟨by decide, handleSendMessage_failure initialState (some "Hello") "boom" (by decide)⟩

/-! ## C4 — stop is idempotent -/

/-- Claim C4: `stopConversation` is idempotent.  After one call the
session handle is null and the playback clip set is empty; a second
call (with no session started in between) leaves the state unchanged
and performs no resource-release side effect at all. -/
theorem stopConversation_idempotent (s : ChatState) :
    (stopConversation s).session = none ∧
    (stopConversation s).audio.sources = [] ∧
    stopConversation (stopConversation s) = stopConversation s ∧
    stopActions (stopConversation s) = [] := by
  refine ⟨rfl, rfl, ?_, ?_⟩
  · simp [stopConversation, cleanup_cleanup]
  · simp [stopActions, stopConversation, cleanupActions_cleanup]

/-! ## C5 — transport error vs transport close -/

/-- A state with a live session: the result of a successful start from
the initial state. -/
def runningState : ChatState := startConversation (some { tracks := [true] }) initialState

/-- Counterexample to claim C5 as stated: on a transport-initiated
close of a live session (`onclose`), no user-visible error message is
surfaced — the error state stays `none`, while the claim demands
exactly one error message in both the error and the close case. -/
theorem transportClose_surfaces_no_error :
    runningState.session.isSome = true ∧
    (handleTransportClose runningState).error = none :=
  ⟨rfl, rfl⟩

/-- Claim C5 (amended): on a transport error the manager performs the
same full teardown as an explicit stop and surfaces exactly one error
message; on a transport-initiated close it performs the same full
teardown but surfaces no error message (the error state is left
unchanged). -/
theorem transport_teardown (s : ChatState) :
    handleTransportError s =
      { stopConversation s with error := some conversationErrorMessage } ∧
    handleTransportClose s = stopConversation s ∧
    (handleTransportError s).error = some conversationErrorMessage ∧
    (handleTransportClose s).error = s.error :=
  ⟨rfl, rfl, rfl, rfl⟩

/-! ## C6 — microphone denial aborts the start -/

/-- Claim C6: if `startConversation` fails because microphone access is
denied or unavailable, the attempt aborts with no partial resources
acquired (no media stream, no audio contexts, no session handle), the
UI reverts to idle (both activity flags false), an error is surfaced,
and the transcript is untouched. -/
theorem start_micDenied_aborts (s : ChatState)
    (hstream : s.audio.stream = none) (hin : s.audio.input = none)
    (hout : s.audio.output = none) (hsess : s.session = none) :
    (startConversation none s).audio.stream = none ∧
    (startConversation none s).audio.input = none ∧
    (startConversation none s).audio.output = none ∧
    (startConversation none s).session = none ∧
    (startConversation none s).isListening = false ∧
    (startConversation none s).isConversing = false ∧
    (startConversation none s).error = some micErrorMessage ∧
    (startConversation none s).transcript = s.transcript := by
  simp [startConversation, hstream, hin, hout, hsess]

/-- Witness for C6 at the initial (idle) state. -/
theorem start_micDenied_aborts_witness :
    initialState.audio.stream = none ∧
    ((startConversation none initialState).audio.stream = none ∧
    (startConversation none initialState).audio.input = none ∧
    (startConversation none initialState).audio.output = none ∧
    (startConversation none initialState).session = none ∧
    (startConversation none initialState).isListening = false ∧
    (startConversation none initialState).isConversing = false ∧
    (startConversation none initialState).error = some micErrorMessage ∧
    (startConversation none initialState).transcript = initialState.transcript) :=
  ⟨rfl, start_micDenied_aborts initialState rfl rfl rfl rfl⟩

/-! ## C9 — system instruction verbatim; mode switch does not touch an
open session -/

/-- Claim C9: the per-mode system instruction is sent verbatim — a
session opened in mode `s.activeMode` captures exactly
`(MODE_CONFIG s.activeMode).systemInstruction`, and every text request
carries exactly the active mode's instruction — while switching the
active mode leaves an in-progress session's handle (and hence its
captured instruction) unchanged; the new mode applies only to the next
session or request. -/
theorem mode_instruction_verbatim (s : ChatState) (m : AIMode) (stream : MediaStream)
    (o : Option String) (r : Except String String) :
    (setActiveMode m s).session = s.session ∧
    (startConversation (some stream) s).session =
      some { systemInstruction := (MODE_CONFIG s.activeMode).systemInstruction } ∧
    (startConversation (some stream) (setActiveMode m s)).session =
      some { systemInstruction := (MODE_CONFIG m).systemInstruction } ∧
    ((handleSendMessage o r s).2 = none ∨
      (handleSendMessage o r s).2 =
        some { model := "gemini-2.5-flash", contents := jsOr o s.inputText,
               systemInstruction := (MODE_CONFIG s.activeMode).systemInstruction }) := by
  refine ⟨rfl, rfl, rfl, ?_⟩
  by_cases h : jsTrim (jsOr o s.inputText) = ""
  · exact Or.inl (by simp [handleSendMessage, h])
  · exact Or.inr (by cases r <;> simp [handleSendMessage, h])

/-! ## C1 — the turn-complete commit -/

/-- Concatenation of the input-transcription fragments of a message
sequence, in arrival order. -/
def inputFragments : List MsgEvent → String
  | [] => ""
  | e :: rest => e.msg.inputTranscription.getD "" ++ inputFragments rest

/-- Concatenation of the output-transcription fragments of a message
sequence, in arrival order. -/
def outputFragments : List MsgEvent → String
  | [] => ""
  | e :: rest => e.msg.outputTranscription.getD "" ++ outputFragments rest

/-- A message without the turn-complete flag only accumulates fragments
(and possibly schedules audio): the transcript is untouched and the
buffers grow by the message's fragments. -/
lemma onmessage_no_turn (m : LiveMsg) (now : ℚ) (srcId : Nat) (s : ChatState)
    (hm : m.turnComplete = false) :
    (onmessage m now srcId s).transcript = s.transcript ∧
    (onmessage m now srcId s).inputBuf = s.inputBuf ++ m.inputTranscription.getD "" ∧
    (onmessage m now srcId s).outputBuf = s.outputBuf ++ m.outputTranscription.getD "" := by
  cases haud : m.audioData with
  | none => simp [onmessage, hm, haud, accumulateTranscription]
  | some b64 =>
      by_cases hb : b64 = "" <;>
        simp [onmessage, hm, haud, hb, accumulateTranscription, scheduleAudio]

/-- Running a turn's worth of non-final messages accumulates exactly
the concatenated fragments and commits nothing. -/
lemma runMessages_no_turn (events : List MsgEvent) (s : ChatState)
    (h : ∀ e ∈ events, e.msg.turnComplete = false) :
    (runMessages events s).transcript = s.transcript ∧
    (runMessages events s).inputBuf = s.inputBuf ++ inputFragments events ∧
    (runMessages events s).outputBuf = s.outputBuf ++ outputFragments events := by
  induction events generalizing s with
  | nil => simp [runMessages, inputFragments, outputFragments]
  | cons e rest ih =>
      have he : e.msg.turnComplete = false := h e (by simp)
      have hrest : ∀ x ∈ rest, x.msg.turnComplete = false := fun x hx => h x (by simp [hx])
      have hstep := onmessage_no_turn e.msg e.now e.srcId s he
      have hrun : runMessages (e :: rest) s =
          runMessages rest (onmessage e.msg e.now e.srcId s) := rfl
      obtain ⟨ht, hi, ho⟩ := ih (onmessage e.msg e.now e.srcId s) hrest
      rw [hrun]
      refine ⟨by rw [ht, hstep.1], ?_, ?_⟩
      · rw [hi, hstep.2.1, inputFragments]
        simp [String.append_assoc]
      · rw [ho, hstep.2.2, outputFragments]
        simp [String.append_assoc]

/-- Claim C1: across any sequence of inbound messages of one voice turn
(buffers empty at turn start, no intermediate turn-complete flag),
processing the message that carries the turn-complete flag appends
exactly a User item with the trimmed accumulated input iff that trimmed
text is non-empty, followed by an AI item with the trimmed accumulated
output iff that trimmed text is non-empty — zero, one or two items,
User before AI — and both turn transcription buffers are empty
immediately after the commit. -/
theorem turn_commit_exact (events : List MsgEvent) (final : LiveMsg) (now : ℚ)
    (srcId : Nat) (s : ChatState) (hin : s.inputBuf = "") (hout : s.outputBuf = "")
    (hmid : ∀ e ∈ events, e.msg.turnComplete = false)
    (hfin : final.turnComplete = true) :
    (onmessage final now srcId (runMessages events s)).transcript =
      s.transcript ++
        ((if jsTrim (inputFragments events ++ final.inputTranscription.getD "") ≠ "" then
            [({ speaker := .User,
                text := jsTrim (inputFragments events ++ final.inputTranscription.getD "") } :
              TranscriptItem)]
          else []) ++
         (if jsTrim (outputFragments events ++ final.outputTranscription.getD "") ≠ "" then
            [({ speaker := .AI,
                text := jsTrim (outputFragments events ++ final.outputTranscription.getD "") } :
              TranscriptItem)]
          else [])) ∧
    (onmessage final now srcId (runMessages events s)).inputBuf = "" ∧
    (onmessage final now srcId (runMessages events s)).outputBuf = "" := by
  obtain ⟨ht, hi, ho⟩ := runMessages_no_turn events s hmid
  have hi' : (runMessages events s).inputBuf = inputFragments events := by
    rw [hi, hin]; simp
  have ho' : (runMessages events s).outputBuf = outputFragments events := by
    rw [ho, hout]; simp
  cases haud : final.audioData with
  | none =>
      simp [onmessage, hfin, haud, accumulateTranscription, commitTurn, turnItems,
        ht, hi', ho']
  | some b64 =>
      by_cases hb : b64 = "" <;>
        simp [onmessage, hfin, haud, hb, accumulateTranscription, commitTurn, turnItems,
          scheduleAudio, ht, hi', ho']

/-- Witness for C1: two input fragments "he" and "llo", no output, then
a turn-complete message — the commit appends exactly one User item with
text "hello" and clears both buffers. -/
theorem turn_commit_exact_witness :
    (onmessage { inputTranscription := none, outputTranscription := none,
                 turnComplete := true, audioData := none } 0 0
        (runMessages
          [{ msg := { inputTranscription := some "he", outputTranscription := none,
                      turnComplete := false, audioData := none }, now := 0, srcId := 0 },
           { msg := { inputTranscription := some "llo", outputTranscription := none,
                      turnComplete := false, audioData := none }, now := 0, srcId := 1 }]
          initialState)).transcript =
      initialState.transcript ++
        ((if jsTrim (inputFragments
              [{ msg := { inputTranscription := some "he", outputTranscription := none,
                          turnComplete := false, audioData := none }, now := 0, srcId := 0 },
               { msg := { inputTranscription := some "llo", outputTranscription := none,
                          turnComplete := false, audioData := none }, now := 0, srcId := 1 }] ++
              (none : Option String).getD "") ≠ "" then
            [({ speaker := .User,
                text := jsTrim (inputFragments
                  [{ msg := { inputTranscription := some "he", outputTranscription := none,
                              turnComplete := false, audioData := none }, now := 0, srcId := 0 },
                   { msg := { inputTranscription := some "llo", outputTranscription := none,
                              turnComplete := false, audioData := none }, now := 0, srcId := 1 }] ++
                  (none : Option String).getD "") } : TranscriptItem)]
          else []) ++
         (if jsTrim (outputFragments
              [{ msg := { inputTranscription := some "he", outputTranscription := none,
                          turnComplete := false, audioData := none }, now := 0, srcId := 0 },
               { msg := { inputTranscription := some "llo", outputTranscription := none,
                          turnComplete := false, audioData := none }, now := 0, srcId := 1 }] ++
              (none : Option String).getD "") ≠ "" then
            [({ speaker := .AI,
                text := jsTrim (outputFragments
                  [{ msg := { inputTranscription := some "he", outputTranscription := none,
                              turnComplete := false, audioData := none }, now := 0, srcId := 0 },
                   { msg := { inputTranscription := some "llo", outputTranscription := none,
                              turnComplete := false, audioData := none }, now := 0, srcId := 1 }] ++
                  (none : Option String).getD "") } : TranscriptItem)]
          else [])) ∧
    (onmessage { inputTranscription := none, outputTranscription := none,
                 turnComplete := true, audioData := none } 0 0
        (runMessages
          [{ msg := { inputTranscription := some "he", outputTranscription := none,
                      turnComplete := false, audioData := none }, now := 0, srcId := 0 },
           { msg := { inputTranscription := some "llo", outputTranscription := none,
                      turnComplete := false, audioData := none }, now := 0, srcId := 1 }]
          initialState)).inputBuf = "" ∧
    (onmessage { inputTranscription := none, outputTranscription := none,
                 turnComplete := true, audioData := none } 0 0
        (runMessages
          [{ msg := { inputTranscription := some "he", outputTranscription := none,
                      turnComplete := false, audioData := none }, now := 0, srcId := 0 },
           { msg := { inputTranscription := some "llo", outputTranscription := none,
                      turnComplete := false, audioData := none }, now := 0, srcId := 1 }]
          initialState)).outputBuf = "" :=
  turn_commit_exact
    [{ msg := { inputTranscription := some "he", outputTranscription := none,
                turnComplete := false, audioData := none }, now := 0, srcId := 0 },
     { msg := { inputTranscription := some "llo", outputTranscription := none,
                turnComplete := false, audioData := none }, now := 0, srcId := 1 }]
    { inputTranscription := none, outputTranscription := none,
      turnComplete := true, audioData := none } 0 0 initialState
    rfl rfl (by intro e he; fin_cases he <;> rfl) rfl

/-! ## C8 — the transcript is append-only -/

/-- The transcript after any `onmessage` is the old transcript plus the
commit items (empty when the message carries no turn-complete flag). -/
lemma onmessage_transcript (m : LiveMsg) (now : ℚ) (srcId : Nat) (s : ChatState) :
    (onmessage m now srcId s).transcript =
      s.transcript ++
        (if m.turnComplete then turnItems (accumulateTranscription m s) else []) := by
  cases haud : m.audioData with
  | none =>
      cases hm : m.turnComplete <;>
        simp [onmessage, hm, haud, accumulateTranscription, commitTurn]
  | some b64 =>
      by_cases hb : b64 = "" <;> cases hm : m.turnComplete <;>
        simp [onmessage, hm, haud, hb, accumulateTranscription, commitTurn, scheduleAudio]

/-- Claim C8: the transcript is append-only — every state-modifying
operation of the component (text send with any outcome, any inbound
live message, playback completion, the simulated DevOps actions, mode
switch, start, stop, transport error/close) only appends new items to
the end of the existing transcript. -/
theorem transcript_append_only (op : Op) (s : ChatState) :
    ∃ t, (applyOp op s).transcript = s.transcript ++ t := by
  cases op with
  | send o r =>
      by_cases h : jsTrim (jsOr o s.inputText) = ""
      · exact ⟨[], by simp [applyOp, handleSendMessage, h]⟩
      · cases r with
        | ok text =>
            exact ⟨[{ speaker := .User, text := jsOr o s.inputText },
                    { speaker := .AI, text := text }],
              by simp [applyOp, handleSendMessage, h]⟩
        | error e =>
            exact ⟨[{ speaker := .User, text := jsOr o s.inputText },
                    { speaker := .AI, text := sendErrorNotice }],
              by simp [applyOp, handleSendMessage, h]⟩
  | message m now srcId =>
      exact ⟨_, onmessage_transcript m now srcId s⟩
  | srcEnded i => exact ⟨[], by simp [applyOp, sourceEnded]⟩
  | deployTrigger =>
      by_cases h : s.isDeploying = true
      · exact ⟨[], by simp [applyOp, handleDeployToPages, h]⟩
      · exact ⟨[{ speaker := .User, text := "Deploy this web application to GitHub Pages." }],
          by simp [applyOp, handleDeployToPages, h]⟩
  | deployDone =>
      exact ⟨[{ speaker := .AI, text := deployResultText }], by simp [applyOp, deployComplete]⟩
  | buildTrigger =>
      by_cases h : s.isBuilding = true
      · exact ⟨[], by simp [applyOp, handleBuildApk, h]⟩
      · exact ⟨[{ speaker := .User, text := "Create a new Android APK release on GitHub." }],
          by simp [applyOp, handleBuildApk, h]⟩
  | buildDone =>
      exact ⟨[{ speaker := .AI, text := buildResultText }], by simp [applyOp, buildComplete]⟩
  | modeSwitch m => exact ⟨[], by simp [applyOp, setActiveMode]⟩
  | start mic =>
      cases mic with
      | none => exact ⟨[], by simp [applyOp, startConversation]⟩
      | some stream => exact ⟨[], by simp [applyOp, startConversation]⟩
  | stop => exact ⟨[], by simp [applyOp, stopConversation]⟩
  | transportError => exact ⟨[], by simp [applyOp, handleTransportError, stopConversation]⟩
  | transportClose => exact ⟨[], by simp [applyOp, handleTransportClose, stopConversation]⟩

/-! ## C2 — gapless, non-overlapping playback scheduling -/

/-- A clip's duration is non-negative. -/
lemma clipDuration_nonneg (b64 : String) : 0 ≤ clipDuration b64 := by
  unfold clipDuration
  positivity

/-- Each `onmessage` either leaves the scheduling state untouched or —
exactly for a present, non-empty audio payload — appends one clip
scheduled at `max nextStartTime now` and advances the tracked next
start time by that clip's duration. -/
lemma onmessage_sched (m : LiveMsg) (now : ℚ) (srcId : Nat) (s : ChatState) :
    ((onmessage m now srcId s).scheduledLog = s.scheduledLog ∧
      (onmessage m now srcId s).nextStartTime = s.nextStartTime) ∨
    (∃ b64, m.audioData = some b64 ∧ b64 ≠ "" ∧
      (onmessage m now srcId s).scheduledLog =
        s.scheduledLog ++ [(max s.nextStartTime now, clipDuration b64)] ∧
      (onmessage m now srcId s).nextStartTime =
        max s.nextStartTime now + clipDuration b64) := by
  cases haud : m.audioData with
  | none =>
      left
      cases hm : m.turnComplete <;>
        simp [onmessage, haud, hm, accumulateTranscription, commitTurn]
  | some b64 =>
      by_cases hb : b64 = ""
      · left
        cases hm : m.turnComplete <;>
          simp [onmessage, haud, hb, hm, accumulateTranscription, commitTurn]
      · right
        refine ⟨b64, rfl, hb, ?_⟩
        cases hm : m.turnComplete <;>
          simp [onmessage, haud, hb, hm, accumulateTranscription, commitTurn, scheduleAudio]

/-- The scheduling invariant maintained by the session manager: the log
of scheduled clips is chained (each clip starts no earlier than the
previous clip's end), the last scheduled end is at most the tracked
next start time, and every duration is non-negative. -/
def schedInv (s : ChatState) : Prop :=
  List.Chain' (fun p q : ℚ × ℚ => p.1 + p.2 ≤ q.1) s.scheduledLog ∧
  (∀ p ∈ s.scheduledLog.getLast?, p.1 + p.2 ≤ s.nextStartTime) ∧
  ∀ p ∈ s.scheduledLog, 0 ≤ p.2

/-- `onmessage` preserves the scheduling invariant. -/
lemma schedInv_step (m : LiveMsg) (now : ℚ) (srcId : Nat) (s : ChatState)
    (h : schedInv s) : schedInv (onmessage m now srcId s) := by
  obtain ⟨hc, hlast, hdur⟩ := h
  rcases onmessage_sched m now srcId s with ⟨h1, h2⟩ | ⟨b64, _, _, h1, h2⟩
  · exact ⟨h1 ▸ hc, by rw [h1, h2]; exact hlast, h1 ▸ hdur⟩
  · refine ⟨?_, ?_, ?_⟩
    · rw [h1]
      refine List.Chain'.append hc (List.chain'_singleton _) ?_
      intro x hx y hy
      simp only [List.head?_cons, Option.mem_some_iff] at hy
      subst hy
      exact le_trans (hlast x hx) (le_max_left _ _)
    · rw [h1, h2]
      intro p hp
      rw [List.getLast?_concat] at hp
      simp only [Option.mem_some_iff] at hp
      subst hp
      exact le_refl _
    · rw [h1]
      intro p hp
      rcases List.mem_append.mp hp with h | h
      · exact hdur p h
      · simp only [List.mem_singleton] at h
        subst h
        exact clipDuration_nonneg b64

/-- `runMessages` preserves the scheduling invariant. -/
lemma schedInv_run (events : List MsgEvent) (s : ChatState) (h : schedInv s) :
    schedInv (runMessages events s) := by
  induction events generalizing s with
  | nil => exact h
  | cons e rest ih => exact ih _ (schedInv_step e.msg e.now e.srcId s h)

/-- From the chained log with non-negative durations: consecutive
scheduled clips neither overlap nor run backwards. -/
lemma chain_indexed (L : List (ℚ × ℚ))
    (hc : List.Chain' (fun p q : ℚ × ℚ => p.1 + p.2 ≤ q.1) L)
    (hd : ∀ p ∈ L, 0 ≤ p.2) (i : Nat) (hi : i + 1 < L.length) :
    (L.getD i (0, 0)).1 + (L.getD i (0, 0)).2 ≤ (L.getD (i + 1) (0, 0)).1 ∧
    (L.getD i (0, 0)).1 ≤ (L.getD (i + 1) (0, 0)).1 := by
  have hi0 : i < L.length := by omega
  rw [List.getD_eq_getElem L (0, 0) hi0, List.getD_eq_getElem L (0, 0) hi]
  have hrel := List.chain'_iff_get.mp hc i (by omega)
  simp only [List.get_eq_getElem] at hrel
  have hnn : 0 ≤ L[i].2 := hd L[i] (L.getElem_mem hi0)
  exact ⟨hrel, by linarith⟩

/-- Claim C2: every audio-payload message schedules its clip to start
at `max (tracked next start time) (output clock)` and then advances the
tracked next start time by the clip's duration; consequently, over any
sequence of inbound messages in a session (whose log starts empty),
scheduled start times are non-decreasing and each clip starts no
earlier than the previous clip's computed end — no overlap. -/
theorem audio_scheduling_sequential :
    (∀ (s : ChatState) (m : LiveMsg) (now : ℚ) (srcId : Nat) (b64 : String),
      m.audioData = some b64 → b64 ≠ "" →
      (onmessage m now srcId s).scheduledLog =
        s.scheduledLog ++ [(max s.nextStartTime now, clipDuration b64)] ∧
      (onmessage m now srcId s).nextStartTime =
        max s.nextStartTime now + clipDuration b64) ∧
    (∀ (events : List MsgEvent) (s : ChatState), s.scheduledLog = [] →
      ∀ i, i + 1 < (runMessages events s).scheduledLog.length →
        ((runMessages events s).scheduledLog.getD i (0, 0)).1 +
            ((runMessages events s).scheduledLog.getD i (0, 0)).2 ≤
          ((runMessages events s).scheduledLog.getD (i + 1) (0, 0)).1 ∧
        ((runMessages events s).scheduledLog.getD i (0, 0)).1 ≤
          ((runMessages events s).scheduledLog.getD (i + 1) (0, 0)).1) := by
  constructor
  · intro s m now srcId b64 haud hb
    cases hm : m.turnComplete <;>
      simp [onmessage, haud, hb, hm, accumulateTranscription, commitTurn, scheduleAudio]
  · intro events s h0 i hi
    have hinv : schedInv (runMessages events s) :=
      schedInv_run events s (by simp [schedInv, h0])
    exact chain_indexed _ hinv.1 hinv.2.2 i hi

/-- A message carrying a three-byte audio payload ("AAAA" decodes to
one 16-bit frame plus a dropped odd byte). -/
def sampleAudioMsg : LiveMsg where
  inputTranscription := none
  outputTranscription := none
  turnComplete := false
  audioData := some "AAAA"

/-- Two consecutive audio-payload events. -/
def sampleAudioEvents : List MsgEvent :=
  [{ msg := sampleAudioMsg, now := 0, srcId := 0 },
   { msg := sampleAudioMsg, now := 0, srcId := 1 }]

/-- Witness for C2 at two concrete audio messages. -/
theorem audio_scheduling_sequential_witness :
    ((onmessage sampleAudioMsg 0 0 initialState).scheduledLog =
        initialState.scheduledLog ++
          [(max initialState.nextStartTime 0, clipDuration "AAAA")] ∧
      (onmessage sampleAudioMsg 0 0 initialState).nextStartTime =
        max initialState.nextStartTime 0 + clipDuration "AAAA") ∧
    (((runMessages sampleAudioEvents initialState).scheduledLog.getD 0 (0, 0)).1 +
        ((runMessages sampleAudioEvents initialState).scheduledLog.getD 0 (0, 0)).2 ≤
      ((runMessages sampleAudioEvents initialState).scheduledLog.getD 1 (0, 0)).1 ∧
      ((runMessages sampleAudioEvents initialState).scheduledLog.getD 0 (0, 0)).1 ≤
        ((runMessages sampleAudioEvents initialState).scheduledLog.getD 1 (0, 0)).1) :=
  ⟨audio_scheduling_sequential.1 initialState sampleAudioMsg 0 0 "AAAA" rfl (by decide),
   audio_scheduling_sequential.2 sampleAudioEvents initialState rfl 0 (by decide)⟩

/-! ## C3 — the PCM16/base64 round trip -/

/-- The alphabet maps back: decoding inverts encoding of a six-bit group. -/
lemma b64_inv : ∀ n < 64, b64Index (b64Char n) = n := by decide

/-- No six-bit group encodes to the padding character. -/
lemma b64_ne_pad : ∀ n < 64, b64Char n ≠ '=' := by decide

/-- Standard base64 decoding inverts encoding on byte lists. -/
theorem atob_btoa : ∀ (bytes : List Nat), (∀ b ∈ bytes, b < 256) →
    atobChunks (btoaChunks bytes) = bytes
  | [], _ => rfl
  | [b1], h => by
      have hb1 : b1 < 256 := h b1 (by simp)
      have e1 : b64Index (b64Char (b1 / 4)) = b1 / 4 := b64_inv _ (by omega)
      have e2 : b64Index (b64Char (b1 % 4 * 16)) = b1 % 4 * 16 := b64_inv _ (by omega)
      simp [btoaChunks, atobChunks, e1, e2]
      omega
  | [b1, b2], h => by
      have hb1 : b1 < 256 := h b1 (by simp)
      have hb2 : b2 < 256 := h b2 (by simp)
      have e1 : b64Index (b64Char (b1 / 4)) = b1 / 4 := b64_inv _ (by omega)
      have e2 : b64Index (b64Char (b1 % 4 * 16 + b2 / 16)) = b1 % 4 * 16 + b2 / 16 :=
        b64_inv _ (by omega)
      have e3 : b64Index (b64Char (b2 % 16 * 4)) = b2 % 16 * 4 := b64_inv _ (by omega)
      have ne3 : b64Char (b2 % 16 * 4) ≠ '=' := b64_ne_pad _ (by omega)
      simp [btoaChunks, atobChunks, e1, e2, e3, ne3]
      omega
  | b1 :: b2 :: b3 :: rest, h => by
      have hb1 : b1 < 256 := h b1 (by simp)
      have hb2 : b2 < 256 := h b2 (by simp)
      have hb3 : b3 < 256 := h b3 (by simp)
      have ih := atob_btoa rest fun b hb => h b (by simp [hb])
      have e1 : b64Index (b64Char (b1 / 4)) = b1 / 4 := b64_inv _ (by omega)
      have e2 : b64Index (b64Char (b1 % 4 * 16 + b2 / 16)) = b1 % 4 * 16 + b2 / 16 :=
        b64_inv _ (by omega)
      have e3 : b64Index (b64Char (b2 % 16 * 4 + b3 / 64)) = b2 % 16 * 4 + b3 / 64 :=
        b64_inv _ (by omega)
      have e4 : b64Index (b64Char (b3 % 64)) = b3 % 64 := b64_inv _ (by omega)
      have ne3 : b64Char (b2 % 16 * 4 + b3 / 64) ≠ '=' := b64_ne_pad _ (by omega)
      have ne4 : b64Char (b3 % 64) ≠ '=' := b64_ne_pad _ (by omega)
      simp [btoaChunks, atobChunks, e1, e2, e3, e4, ne3, ne4, ih]
      omega

/-- `decode` inverts `encode` on byte lists. -/
lemma decode_encode (bytes : List Nat) (h : ∀ b ∈ bytes, b < 256) :
    decode (encode bytes) = bytes :=
  atob_btoa bytes h

/-- `int16ToBytes` produces genuine bytes. -/
lemma int16ToBytes_lt (s : Int) : ∀ b ∈ int16ToBytes s, b < 256 := by
  intro b hb
  simp only [int16ToBytes, List.mem_cons, List.not_mem_nil, or_false] at hb
  rcases hb with h | h <;> subst h <;> omega

/-- Reading back the little-endian byte pair of an in-range signed
16-bit value recovers the value. -/
lemma bytesToInt16s_cons (s : Int) (h1 : -32768 ≤ s) (h2 : s < 32768)
    (rest : List Nat) :
    bytesToInt16s (int16ToBytes s ++ rest) = s :: bytesToInt16s rest := by
  simp only [int16ToBytes, List.cons_append, List.nil_append, bytesToInt16s]
  refine congrArg (· :: bytesToInt16s rest) ?_
  split <;> omega

/-- `toInt16` always lands in the signed 16-bit range. -/
lemma toInt16_range (q : ℚ) : -32768 ≤ toInt16 q ∧ toInt16 q < 32768 := by
  unfold toInt16
  split <;> omega

/-- Every byte of a `createBlob` payload is a genuine byte. -/
lemma createBlobBytes_lt (data : List ℚ) : ∀ b ∈ createBlobBytes data, b < 256 := by
  intro b hb
  simp only [createBlobBytes, List.mem_flatten, List.mem_map] at hb
  obtain ⟨l, ⟨x, _, rfl⟩, hbl⟩ := hb
  exact int16ToBytes_lt _ b hbl

/-- The byte payload of `createBlob`, read back as int16 samples, is
exactly the per-sample `ToInt16` image. -/
lemma bytesToInt16s_createBlobBytes (data : List ℚ) :
    bytesToInt16s (createBlobBytes data) = data.map fun x => toInt16 (x * 32768) := by
  induction data with
  | nil => rfl
  | cons x rest ih =>
      have hr := toInt16_range (x * 32768)
      have hstep : createBlobBytes (x :: rest) =
          int16ToBytes (toInt16 (x * 32768)) ++ createBlobBytes rest := by
        simp [createBlobBytes]
      rw [hstep, bytesToInt16s_cons _ hr.1 hr.2, ih, List.map_cons]

/-- The full decode-of-encode pipeline equals the per-sample quantised
image: scale, truncate/wrap, divide by 32768. -/
lemma decode_createBlob (data : List ℚ) :
    decodeAudioData (decode (createBlob data).data) =
      data.map fun x => (toInt16 (x * 32768) : ℚ) / 32768 := by
  show decodeAudioData (decode (encode (createBlobBytes data))) = _
  rw [decode_encode _ (createBlobBytes_lt data)]
  unfold decodeAudioData
  rw [bytesToInt16s_createBlobBytes, List.map_map]
  simp [Function.comp_def]

/-- Truncation bounds for a non-negative rational. -/
lemma truncToward0_nonneg (q : ℚ) (h : 0 ≤ q) :
    (truncToward0 q : ℚ) ≤ q ∧ q < (truncToward0 q : ℚ) + 1 := by
  have hnum : 0 ≤ q.num := Rat.num_nonneg.mpr h
  have hd : (0 : Int) < (q.den : Int) := by exact_mod_cast q.den_pos
  have ht : truncToward0 q = q.num / (q.den : Int) := by simp [truncToward0, hnum]
  have hb1 : (q.den : Int) * (q.num / (q.den : Int)) ≤ q.num := by
    have ha := Int.ediv_add_emod q.num (q.den : Int)
    have hc := Int.emod_nonneg q.num (by omega : (q.den : Int) ≠ 0)
    omega
  have hb2 : q.num < (q.den : Int) * (q.num / (q.den : Int)) + (q.den : Int) := by
    have ha := Int.ediv_add_emod q.num (q.den : Int)
    have hc := Int.emod_lt_of_pos q.num hd
    omega
  have hden : (0 : ℚ) < (q.den : ℚ) := by exact_mod_cast hd
  have hden0 : (q.den : ℚ) ≠ 0 := ne_of_gt hden
  have hq1 : (q.num : ℚ) = q * (q.den : ℚ) := by
    have h0 : ((q.num : ℚ)) / (q.den : ℚ) * (q.den : ℚ) = q * (q.den : ℚ) := by
      rw [Rat.num_div_den]
    rwa [div_mul_cancel₀ _ hden0] at h0
  have hc1 : (q.den : ℚ) * ((q.num / (q.den : Int) : Int) : ℚ) ≤ (q.num : ℚ) := by
    exact_mod_cast hb1
  have hc2 : (q.num : ℚ) <
      (q.den : ℚ) * ((q.num / (q.den : Int) : Int) : ℚ) + (q.den : ℚ) := by
    exact_mod_cast hb2
  rw [ht]
  constructor
  · nlinarith [hc1, hq1, hden]
  · nlinarith [hc2, hq1, hden]

/-- Truncation bounds for a negative rational. -/
lemma truncToward0_neg (q : ℚ) (h : q < 0) :
    q ≤ (truncToward0 q : ℚ) ∧ (truncToward0 q : ℚ) < q + 1 := by
  have hnum : q.num < 0 := by
    by_contra hc
    push_neg at hc
    exact absurd (Rat.num_nonneg.mp hc) (not_le.mpr h)
  have hd : (0 : Int) < (q.den : Int) := by exact_mod_cast q.den_pos
  have ht : truncToward0 q = -((-q.num) / (q.den : Int)) := by
    simp [truncToward0, not_le.mpr hnum]
  have hb1 : (q.den : Int) * ((-q.num) / (q.den : Int)) ≤ -q.num := by
    have ha := Int.ediv_add_emod (-q.num) (q.den : Int)
    have hc := Int.emod_nonneg (-q.num) (by omega : (q.den : Int) ≠ 0)
    omega
  have hb2 : -q.num < (q.den : Int) * ((-q.num) / (q.den : Int)) + (q.den : Int) := by
    have ha := Int.ediv_add_emod (-q.num) (q.den : Int)
    have hc := Int.emod_lt_of_pos (-q.num) hd
    omega
  have hden : (0 : ℚ) < (q.den : ℚ) := by exact_mod_cast hd
  have hden0 : (q.den : ℚ) ≠ 0 := ne_of_gt hden
  have hq1 : (q.num : ℚ) = q * (q.den : ℚ) := by
    have h0 : ((q.num : ℚ)) / (q.den : ℚ) * (q.den : ℚ) = q * (q.den : ℚ) := by
      rw [Rat.num_div_den]
    rwa [div_mul_cancel₀ _ hden0] at h0
  have hc1 : (q.den : ℚ) * (((-q.num) / (q.den : Int) : Int) : ℚ) ≤ -(q.num : ℚ) := by
    exact_mod_cast hb1
  have hc2 : -(q.num : ℚ) <
      (q.den : ℚ) * (((-q.num) / (q.den : Int) : Int) : ℚ) + (q.den : ℚ) := by
    exact_mod_cast hb2
  rw [ht]
  push_cast
  constructor
  · nlinarith [hc1, hq1, hden]
  · nlinarith [hc2, hq1, hden]

/-- For a scaled sample in the representable range, `ToInt16` does not
wrap: it is plain truncation toward zero. -/
lemma toInt16_no_wrap (q : ℚ) (h1 : -32768 ≤ q) (h2 : q < 32768) :
    toInt16 q = truncToward0 q := by
  have hrange : -32768 ≤ truncToward0 q ∧ truncToward0 q < 32768 := by
    rcases le_or_lt 0 q with hq | hq
    · obtain ⟨ha, hb⟩ := truncToward0_nonneg q hq
      have hlow : (-1 : ℚ) < (truncToward0 q : ℚ) := by linarith
      have hhigh : (truncToward0 q : ℚ) < 32768 := by linarith
      have hlow' : (-1 : Int) < truncToward0 q := by exact_mod_cast hlow
      have hhigh' : truncToward0 q < (32768 : Int) := by exact_mod_cast hhigh
      omega
    · obtain ⟨ha, hb⟩ := truncToward0_neg q hq
      have hlow : (-32768 : ℚ) ≤ (truncToward0 q : ℚ) := by linarith
      have hhigh : (truncToward0 q : ℚ) < 32768 := by linarith
      have hlow' : (-32768 : Int) ≤ truncToward0 q := by exact_mod_cast hlow
      have hhigh' : truncToward0 q < (32768 : Int) := by exact_mod_cast hhigh
      omega
  obtain ⟨hl, hr⟩ := hrange
  unfold toInt16
  split <;> omega

/-- Per-sample round-trip error bound for a sample in `[-1, 1)`. -/
lemma sample_error (x : ℚ) (h1 : -1 ≤ x) (h2 : x < 1) :
    |(toInt16 (x * 32768) : ℚ) / 32768 - x| ≤ 1 / 32768 := by
  have hq1 : -32768 ≤ x * 32768 := by linarith
  have hq2 : x * 32768 < 32768 := by linarith
  rw [toInt16_no_wrap _ hq1 hq2, abs_le]
  rcases le_or_lt 0 (x * 32768) with hq | hq
  · obtain ⟨ha, hb⟩ := truncToward0_nonneg _ hq
    constructor <;> linarith
  · obtain ⟨ha, hb⟩ := truncToward0_neg _ hq
    constructor <;> linarith

/-- Claim C3 (amended): for every array of samples in `[-1, 1)` — the
right end excluded, since the source wraps rather than clamps at
exactly `1` — encoding to the PCM16/base64 envelope (`createBlob`) and
decoding back (`decode` + `decodeAudioData`) reproduces every sample
within `1/32768` quantisation error. -/
theorem pcm_roundtrip (data : List ℚ) (h : ∀ x ∈ data, -1 ≤ x ∧ x < 1) :
    (decodeAudioData (decode (createBlob data).data)).length = data.length ∧
    ∀ i, i < data.length →
      |(decodeAudioData (decode (createBlob data).data)).getD i 0 - data.getD i 0| ≤
        1 / 32768 := by
  rw [decode_createBlob]
  refine ⟨by simp, ?_⟩
  intro i hi
  have hlen : i < (data.map fun x => (toInt16 (x * 32768) : ℚ) / 32768).length := by
    simpa using hi
  rw [List.getD_eq_getElem _ _ hlen, List.getD_eq_getElem _ _ hi, List.getElem_map]
  exact sample_error _ (h _ (List.getElem_mem hi)).1 (h _ (List.getElem_mem hi)).2

/-- Witness for C3 (amended) on the sample array `[0]`. -/
theorem pcm_roundtrip_witness :
    (∀ x ∈ [(0 : ℚ)], -1 ≤ x ∧ x < 1) ∧
    ((decodeAudioData (decode (createBlob [(0 : ℚ)]).data)).length = [(0 : ℚ)].length ∧
      ∀ i, i < [(0 : ℚ)].length →
        |(decodeAudioData (decode (createBlob [(0 : ℚ)]).data)).getD i 0 -
            [(0 : ℚ)].getD i 0| ≤ 1 / 32768) :=
  ⟨by norm_num, pcm_roundtrip [(0 : ℚ)] (by norm_num)⟩

/-- The sample `1.0` wraps: `1 * 32768 = 32768` stored through `ToInt16`
becomes `-32768`. -/
lemma toInt16_32768 : toInt16 ((32768 : ℚ)) = -32768 := by
  have hnum : (32768 : ℚ).num = 32768 := by norm_num
  have hden : (32768 : ℚ).den = 1 := by norm_num
  unfold toInt16 truncToward0
  rw [hnum, hden]
  decide

/-- Counterexample to claim C3 as stated: on the sample array `[1]`
(the sample `1.0` lies in the claimed domain `[-1, 1]`), the round trip
returns `[-1]`, an error of `2`, far beyond the claimed `1/32768`
bound — the `Int16Array` store wraps instead of clamping. -/
theorem pcm_roundtrip_cex :
    decodeAudioData (decode (createBlob [(1 : ℚ)]).data) = [(-1 : ℚ)] ∧
    1 / 32768 <
      |(decodeAudioData (decode (createBlob [(1 : ℚ)]).data)).getD 0 0 - (1 : ℚ)| := by
  have h : decodeAudioData (decode (createBlob [(1 : ℚ)]).data) = [(-1 : ℚ)] := by
    rw [decode_createBlob]
    norm_num [toInt16_32768]
  refine ⟨h, ?_⟩
  rw [h, List.getD_cons_zero]
  rw [show (-1 : ℚ) - 1 = -2 by norm_num]
  rw [abs_neg, abs_of_nonneg (by norm_num : (0 : ℚ) ≤ 2)]
  norm_num

end RedAI
